import Mathlib

/-!
Shallow embedding of the core logic of `src/main.py` (a Facebook-Ads
reporting dashboard backend), together with proofs about the claims of
its specification.

Conventions of the embedding:
* Python `None` / missing JSON fields are modelled by `Option`.
* Python numeric values are modelled exactly: `float` amounts by `ℚ`
  (exact arithmetic; IEEE rounding is abstracted away), `int` counters
  by `Int` (Python ints are unbounded and may be negative).
* Python exceptions are modelled by `Except String`.
* The remote HTTP API is modelled by an oracle function supplied as an
  explicit argument; the `while True` pagination loop is modelled with
  explicit fuel, `none` marking a run that did not terminate within the
  fuel bound.
-/

namespace FacebookAdsClient

/-- One element of an insight row's `actions` list: a named event
counter.  `action_type` and `value` model `action.get("action_type")`
and `action.get("value", 0)`; `value` holds the result of Python's
`int(...)` conversion of the reported value. -/
structure ActionCounter where
  action_type : Option String
  value : Option Int
deriving Repr, DecidableEq

/-- The alias set for "leads", exactly the list literal on line 63 of
`src/main.py`. -/
def leadTypes : List String :=
  ["lead", "onsite_conversion.lead_grouped", "offsite_conversion.fb_pixel_lead"]

/-- Does this action counter match the "leads" alias set
(`action.get("action_type") in [...]`)?  A missing `action_type`
(Python `None`) never matches. -/
def isLeadAction (a : ActionCounter) : Bool :=
  match a.action_type with
  | some t => leadTypes.contains t
  | none => false

/-- Does this action counter match `link_click`
(`action.get("action_type") == "link_click"`)? -/
def isLinkClickAction (a : ActionCounter) : Bool :=
  match a.action_type with
  | some t => t == "link_click"
  | none => false

/-- The scan shared by both extractors: return `int(action.get("value", 0))`
of the first counter satisfying `p`, or `0` after the loop ends. -/
def findActionValue (p : ActionCounter → Bool) : List ActionCounter → Int
  | [] => 0
  | a :: rest => if p a then a.value.getD 0 else findActionValue p rest

/-- `FacebookAdsClient._extract_leads` (src/main.py lines 58–65).
`none` models `actions is None`; note that `if not actions` also short
circuits the empty list, which agrees with the scan returning 0. -/
def extract_leads (actions : Option (List ActionCounter)) : Int :=
  match actions with
  | none => 0
  | some l => findActionValue isLeadAction l

/-- `FacebookAdsClient._extract_link_clicks` (src/main.py lines 67–74). -/
def extract_link_clicks (actions : Option (List ActionCounter)) : Int :=
  match actions with
  | none => 0
  | some l => findActionValue isLinkClickAction l

/-- One insight row as consumed by `_calculate_account_summary`
(`row.get(...)` with default 0 / `None`). -/
structure ReportRow where
  spend : Option ℚ
  impressions : Option Int
  reach : Option Int
  clicks : Option Int
  actions : Option (List ActionCounter)
deriving Repr, DecidableEq

/-- The running totals accumulated by the `for row in insights_data`
loop of `_calculate_account_summary`, plus the derived ratios filled in
after the loop. -/
structure AggregateSummary where
  spend : ℚ
  impressions : Int
  reach : Int
  clicks : Int
  link_clicks : Int
  leads : Int
  cpm : ℚ
  ctr : ℚ
  cpc : ℚ
  cpl : ℚ
deriving Repr, DecidableEq

/-- One iteration of the accumulation loop (src/main.py lines 87–93). -/
def accumRow (t : AggregateSummary) (row : ReportRow) : AggregateSummary :=
  { t with
    spend := t.spend + row.spend.getD 0
    impressions := t.impressions + row.impressions.getD 0
    reach := t.reach + row.reach.getD 0
    clicks := t.clicks + row.clicks.getD 0
    link_clicks := t.link_clicks + extract_link_clicks row.actions
    leads := t.leads + extract_leads row.actions }

/-- The all-zero totals dict the loop starts from (src/main.py lines 78–85). -/
def initTotals : AggregateSummary :=
  { spend := 0, impressions := 0, reach := 0, clicks := 0, link_clicks := 0,
    leads := 0, cpm := 0, ctr := 0, cpc := 0, cpl := 0 }

/-- `FacebookAdsClient._calculate_account_summary` (src/main.py lines
76–101): sum the per-row metrics, then derive cpm/ctr/cpc/cpl, each
guarded by `if denominator > 0 else 0`. -/
def calculate_account_summary (insights_data : List ReportRow) : AggregateSummary :=
  let t := insights_data.foldl accumRow initTotals
  { t with
    cpm := if t.impressions > 0 then t.spend / (t.impressions : ℚ) * 1000 else 0
    ctr := if t.impressions > 0 then (t.clicks : ℚ) / (t.impressions : ℚ) * 100 else 0
    cpc := if t.clicks > 0 then t.spend / (t.clicks : ℚ) else 0
    cpl := if t.leads > 0 then t.spend / (t.leads : ℚ) else 0 }

/-- Python's `str.startswith`, as used on account ids: a prefix test on
the character sequence. -/
def startswith (s pre : String) : Bool :=
  pre.data.isPrefixOf s.data

/-- The account-id normalization performed in `__init__` (line 43) and
in `get_account_summary` (lines 127–128):
`f"act_{x}" if not x.startswith("act_") else x`. -/
def normalizeAccountId (account_id : String) : String :=
  if startswith account_id "act_" then account_id else "act_" ++ account_id

/-- An account-summary record: the computed totals plus the identity
fields attached on lines 145–147 of src/main.py. -/
structure AccountSummary where
  totals : AggregateSummary
  account_id : String
  account_name : String
  currency : String
deriving Repr, DecidableEq

/-- An insight fetch oracle: for a (normalized) account id, either the
`data` list of the insights response, or the exception the request
raised. -/
def InsightFetch : Type := String → Except String (List ReportRow)

/-- `FacebookAdsClient.get_account_summary` (src/main.py lines 125–153):
normalize the id, fetch the account's insight rows; on any exception
return `None`; on an empty `data` list also return `None`; otherwise run
the aggregator and attach the identity fields. -/
def get_account_summary (fetch : InsightFetch)
    (account_id account_name currency : String) : Option AccountSummary :=
  let aid := normalizeAccountId account_id
  match fetch aid with
  | .error _ => none
  | .ok insights =>
    if insights.isEmpty then none
    else some { totals := calculate_account_summary insights
                account_id := aid
                account_name := account_name
                currency := currency }

/-- One entry of the business account listing, as consumed by
`get_all_accounts_summary` (`account["id"]`, `account.get("name",
"Unknown")`, `account.get("currency", "USD")`). -/
structure Account where
  id : String
  name : Option String
  currency : Option String
deriving Repr, DecidableEq

/-- `FacebookAdsClient.get_all_accounts_summary` (src/main.py lines
155–169): iterate over the account list, appending each per-account
summary exactly when it is not `None`. -/
def get_all_accounts_summary (fetch : InsightFetch)
    (accounts : List Account) : List AccountSummary :=
  accounts.filterMap fun account =>
    get_account_summary fetch account.id (account.name.getD "Unknown")
      (account.currency.getD "USD")

/-! ### Pagination and the error envelope (`_request`,
`get_business_ad_accounts`) -/

/-- The `error` object of an error envelope; `message` models
`data["error"].get("message", ...)`. -/
structure FBError where
  message : Option String
deriving Repr, DecidableEq

/-- The paging envelope of one response: `hasNext` models the presence
of the `"next"` key in `paging`, `after` the presence (and value) of
`"after"` inside `paging["cursors"]`.  A response with no `paging` key
at all behaves exactly like `⟨false, none⟩`, since the code only tests
those two memberships. -/
structure Paging where
  hasNext : Bool
  after : Option String
deriving Repr, DecidableEq

/-- One response of the `owned_ad_accounts` endpoint. -/
structure PageResponse where
  error : Option FBError
  data : List Account
  paging : Paging
deriving Repr, DecidableEq

/-- The error-envelope check of `FacebookAdsClient._request` (src/main.py
lines 53–56): if the body has an `"error"` key, raise carrying
`error.get("message", "Facebook API error")`; otherwise return the body. -/
def request_check (resp : PageResponse) : Except String PageResponse :=
  match resp.error with
  | some e => .error (e.message.getD "Facebook API error")
  | none => .ok resp

/-- Does the `while True` loop of `get_business_ad_accounts` issue
another request after this page?  It does exactly when `"next" in
paging` and `"after" in paging["cursors"]` (src/main.py lines 114–121). -/
def continuesPaging (p : PageResponse) : Bool :=
  p.paging.hasNext && p.paging.after.isSome

/-- The `while True` loop of `FacebookAdsClient.get_business_ad_accounts`
(src/main.py lines 109–121), with the remote service modelled as the
sequence `resp` of responses to the successive requests (request `i`
carries the `after` cursor of page `i - 1`).  `fuel` bounds the number
of requests; `none` marks a run that did not finish within the bound,
`some (.error m)` a run ended by a raised error envelope, and
`some (.ok l)` a normal return of the concatenated `data` arrays. -/
def fetchAccountsLoop (resp : Nat → PageResponse) :
    Nat → Nat → Option (Except String (List Account))
  | 0, _ => none
  | fuel + 1, i =>
    match request_check (resp i) with
    | .error msg => some (.error msg)
    | .ok page =>
      if continuesPaging page then
        (fetchAccountsLoop resp fuel (i + 1)).map fun r =>
          r.map fun rest => page.data ++ rest
      else
        some (.ok page.data)

/-- `FacebookAdsClient.get_business_ad_accounts`, i.e. the loop started
at the first request. -/
def get_business_ad_accounts (resp : Nat → PageResponse) (fuel : Nat) :
    Option (Except String (List Account)) :=
  fetchAccountsLoop resp fuel 0

/-! ### Creative URL resolution (`get_campaign_urls`) -/

/-- Python truthiness of an optional string: `None` and the empty
string are falsy. -/
def strTruthy (o : Option String) : Bool :=
  match o with
  | some s => !(s == "")
  | none => false

/-- `object_story_spec.link_data`. -/
structure LinkData where
  link : Option String
deriving Repr, DecidableEq

/-- The `value` object of a video call-to-action. -/
structure CallToActionValue where
  link : Option String
deriving Repr, DecidableEq

/-- `video_data.call_to_action`. -/
structure CallToAction where
  value : Option CallToActionValue
deriving Repr, DecidableEq

/-- `object_story_spec.video_data`. -/
structure VideoData where
  call_to_action : Option CallToAction
deriving Repr, DecidableEq

/-- The `object_story_spec` of a creative. -/
structure ObjectStorySpec where
  link_data : Option LinkData
  video_data : Option VideoData
deriving Repr, DecidableEq

/-- One entry of `asset_feed_spec.link_urls`. -/
structure LinkUrlEntry where
  website_url : Option String
deriving Repr, DecidableEq

/-- The `asset_feed_spec` of a creative. -/
structure AssetFeedSpec where
  link_urls : Option (List LinkUrlEntry)
deriving Repr, DecidableEq

/-- An ad creative as inspected by `get_campaign_urls`.  An absent or
empty (falsy) nested dict is modelled by `none`: entering the code's
`if object_story_spec:` / `if asset_feed:` blocks with an empty dict
assigns nothing, so the two are indistinguishable. -/
structure Creative where
  link_url : Option String
  object_story_spec : Option ObjectStorySpec
  asset_feed_spec : Option AssetFeedSpec
deriving Repr, DecidableEq

/-- The video call-to-action link chain
`video_data.get("call_to_action", {}).get("value", {}).get("link")`. -/
def videoCtaLink (oss : ObjectStorySpec) : Option String :=
  oss.video_data.bind fun v =>
    v.call_to_action.bind fun cta =>
      cta.value.bind fun value => value.link

/-- The URL-resolution body of `get_campaign_urls` for one ad's creative
(src/main.py lines 189–212), as a straight-line transcription of the
successive conditional assignments to `url`: the direct `link_url`
first, then (overwriting) the story-spec link, then (overwriting) the
video call-to-action link, and finally — whenever `asset_feed_spec`
holds a non-empty `link_urls` list — the unconditional assignment
`url = link_urls[0].get("website_url")`. -/
def resolve_creative_url (creative : Creative) : Option String :=
  let url0 : Option String := none
  let url1 := if strTruthy creative.link_url then creative.link_url else url0
  let url2 :=
    match creative.object_story_spec with
    | none => url1
    | some oss =>
      let ossLink := oss.link_data.bind fun ld => ld.link
      let u := if strTruthy ossLink then ossLink else url1
      let cta := videoCtaLink oss
      if strTruthy cta then cta else u
  match creative.asset_feed_spec with
  | none => url2
  | some af =>
    match af.link_urls with
    | none => url2
    | some [] => url2
    | some (entry :: _) => entry.website_url

/-- One ad of the `{ad_account_id}/ads` response, as consumed by
`get_campaign_urls`. -/
structure Ad where
  campaign_id : Option String
  creative : Option Creative
deriving Repr, DecidableEq

/-- The dict-building loop of `get_campaign_urls` (src/main.py lines
185–217): resolve each ad's creative URL and keep the FIRST url found
per campaign id (`if campaign_id not in campaign_urls`), skipping ads
whose url or campaign id is falsy.  The dict is modelled as an
association list in insertion order. -/
def campaign_urls_of (ads : List Ad) : List (String × String) :=
  ads.foldl
    (fun acc ad =>
      let url := resolve_creative_url (ad.creative.getD ⟨none, none, none⟩)
      match strTruthy url, ad.campaign_id with
      | true, some cid =>
        if strTruthy (some cid) && (acc.lookup cid).isNone then
          acc ++ [(cid, url.getD "")]
        else acc
      | _, _ => acc)
    []

/-! ### Per-campaign records (`get_account_campaigns`) -/

/-- One campaign-level insight row, carrying the platform-reported
cpm/ctr/cpc fields requested on line 229 of src/main.py. -/
structure CampaignInsightRow where
  campaign_name : Option String
  campaign_id : Option String
  spend : Option ℚ
  impressions : Option Int
  reach : Option Int
  clicks : Option Int
  actions : Option (List ActionCounter)
  cpm : Option ℚ
  ctr : Option ℚ
  cpc : Option ℚ
deriving Repr, DecidableEq

/-- The per-campaign record built by `get_account_campaigns`. -/
structure CampaignRecord where
  campaign_name : Option String
  campaign_id : Option String
  url : String
  spend : ℚ
  impressions : Int
  reach : Int
  clicks : Int
  link_clicks : Int
  leads : Int
  cpm : ℚ
  ctr : ℚ
  cpc : ℚ
  cpl : ℚ
deriving Repr, DecidableEq

/-- The record built for one row of the campaign-level insights response
(src/main.py lines 240–257): totals copied from the row with default 0,
`url` looked up in the campaign-urls dict with default `""`,
cpm/ctr/cpc taken verbatim from the row (default 0), and only `cpl`
computed locally as `spend / leads if leads > 0 else 0`. -/
def mkCampaignRecord (campaign_urls : List (String × String))
    (row : CampaignInsightRow) : CampaignRecord :=
  let spend := row.spend.getD 0
  let leads := extract_leads row.actions
  { campaign_name := row.campaign_name
    campaign_id := row.campaign_id
    url := (row.campaign_id.bind fun cid => campaign_urls.lookup cid).getD ""
    spend := spend
    impressions := row.impressions.getD 0
    reach := row.reach.getD 0
    clicks := row.clicks.getD 0
    link_clicks := extract_link_clicks row.actions
    leads := leads
    cpm := row.cpm.getD 0
    ctr := row.ctr.getD 0
    cpc := row.cpc.getD 0
    cpl := if leads > 0 then spend / (leads : ℚ) else 0 }

/-- `FacebookAdsClient.get_account_campaigns` (src/main.py lines
224–259), with the two fetches already performed: the campaign-level
insight rows and the ads list feeding the URL dict. -/
def get_account_campaigns (rows : List CampaignInsightRow) (ads : List Ad) :
    List CampaignRecord :=
  rows.map (mkCampaignRecord (campaign_urls_of ads))

/-! ## Helper lemmas -/

theorem findActionValue_append_of_none_match (p : ActionCounter → Bool)
    (pre l : List ActionCounter) (h : ∀ b ∈ pre, p b = false) :
    findActionValue p (pre ++ l) = findActionValue p l := by
  induction pre with
  | nil => rfl
  | cons a rest ih =>
    have ha : p a = false := h a (by simp)
    simp only [List.cons_append, findActionValue, ha, Bool.false_eq_true, if_false]
    exact ih fun b hb => h b (by simp [hb])

theorem findActionValue_eq_zero (p : ActionCounter → Bool) (l : List ActionCounter)
    (h : ∀ b ∈ l, p b = false) : findActionValue p l = 0 := by
  induction l with
  | nil => rfl
  | cons a rest ih =>
    have ha : p a = false := h a (by simp)
    simp only [findActionValue, ha, Bool.false_eq_true, if_false]
    exact ih fun b hb => h b (by simp [hb])

/-! ## C3: first-match metric extraction -/

/-- C3: for every list of action counters, the extractors return the
integer value of the first entry (in input order) whose `action_type`
lies in the target alias set — `leadTypes` for leads, `link_click` for
link clicks — and return 0 when the input is `None`, empty, or contains
no matching entry. -/
theorem claim_C3_first_match_extraction :
    (∀ (pre : List ActionCounter) (a : ActionCounter) (rest : List ActionCounter),
        (∀ b ∈ pre, isLeadAction b = false) → isLeadAction a = true →
        extract_leads (some (pre ++ a :: rest)) = a.value.getD 0) ∧
    (∀ (pre : List ActionCounter) (a : ActionCounter) (rest : List ActionCounter),
        (∀ b ∈ pre, isLinkClickAction b = false) → isLinkClickAction a = true →
        extract_link_clicks (some (pre ++ a :: rest)) = a.value.getD 0) ∧
    extract_leads none = 0 ∧ extract_link_clicks none = 0 ∧
    extract_leads (some []) = 0 ∧ extract_link_clicks (some []) = 0 ∧
    (∀ l, (∀ b ∈ l, isLeadAction b = false) → extract_leads (some l) = 0) ∧
    (∀ l, (∀ b ∈ l, isLinkClickAction b = false) → extract_link_clicks (some l) = 0) := by
  refine ⟨?_, ?_, rfl, rfl, rfl, rfl, ?_, ?_⟩
  · intro pre a rest hpre ha
    show findActionValue isLeadAction (pre ++ a :: rest) = a.value.getD 0
    rw [findActionValue_append_of_none_match _ _ _ hpre]
    simp [findActionValue, ha]
  · intro pre a rest hpre ha
    show findActionValue isLinkClickAction (pre ++ a :: rest) = a.value.getD 0
    rw [findActionValue_append_of_none_match _ _ _ hpre]
    simp [findActionValue, ha]
  · intro l h
    exact findActionValue_eq_zero _ _ h
  · intro l h
    exact findActionValue_eq_zero _ _ h

/-- Witness for C3: on the concrete list
`[{comment, 5}, {lead, 2}, {lead, 9}]` the lead extractor returns the
value 2 of the first matching entry. -/
theorem claim_C3_first_match_extraction_witness :
    extract_leads (some [⟨some "comment", some 5⟩, ⟨some "lead", some 2⟩,
      ⟨some "lead", some 9⟩]) = 2 := by
  have h := claim_C3_first_match_extraction.1 [⟨some "comment", some 5⟩]
    ⟨some "lead", some 2⟩ [⟨some "lead", some 9⟩] (by decide) (by decide)
  simpa using h

/-! ## C6: concrete aggregation scenario -/

/-- The two-row scenario of the spec's §8. -/
def concreteScenarioRows : List ReportRow :=
  [⟨some 10, some 1000, none, some 20, some [⟨some "lead", some 2⟩]⟩,
   ⟨some 5, some 500, none, some 5, some []⟩]

/-- C6: on the concrete two-row input the aggregator produces totals
spend = 15, impressions = 1500, clicks = 25, leads = 2 and ratios
cpm = 10, ctr = 25/1500·100, cpc = 0.6, cpl = 7.5; on the empty row
sequence every total and every ratio is 0 (and, the function being
total, nothing is raised). -/
theorem claim_C6_concrete_scenario :
    ((calculate_account_summary concreteScenarioRows).spend = 15 ∧
     (calculate_account_summary concreteScenarioRows).impressions = 1500 ∧
     (calculate_account_summary concreteScenarioRows).clicks = 25 ∧
     (calculate_account_summary concreteScenarioRows).leads = 2 ∧
     (calculate_account_summary concreteScenarioRows).cpm = 10 ∧
     (calculate_account_summary concreteScenarioRows).ctr = 25 / 1500 * 100 ∧
     (calculate_account_summary concreteScenarioRows).cpc = 0.6 ∧
     (calculate_account_summary concreteScenarioRows).cpl = 7.5) ∧
    ((calculate_account_summary []).spend = 0 ∧
     (calculate_account_summary []).impressions = 0 ∧
     (calculate_account_summary []).reach = 0 ∧
     (calculate_account_summary []).clicks = 0 ∧
     (calculate_account_summary []).link_clicks = 0 ∧
     (calculate_account_summary []).leads = 0 ∧
     (calculate_account_summary []).cpm = 0 ∧
     (calculate_account_summary []).ctr = 0 ∧
     (calculate_account_summary []).cpc = 0 ∧
     (calculate_account_summary []).cpl = 0) := by
  constructor
  · norm_num [concreteScenarioRows, calculate_account_summary, accumRow, initTotals,
      extract_leads, extract_link_clicks, findActionValue, isLeadAction,
      isLinkClickAction, leadTypes]
  · norm_num [calculate_account_summary, initTotals]

/-! ## C8: account-id normalization -/

theorem startswith_act_append (s : String) :
    startswith ("act_" ++ s) "act_" = true := by
  unfold startswith
  rw [String.data_append, List.isPrefixOf_iff_prefix]
  exact List.prefix_append _ _

/-- C8: `"123456"` normalizes to `"act_123456"`, `"act_999"` stays
`"act_999"`, the normalization is idempotent, and `get_account_summary`
uses only the normalized id for its sub-query: feeding it an already
normalized id changes nothing. -/
theorem claim_C8_account_id_normalization :
    normalizeAccountId "123456" = "act_123456" ∧
    normalizeAccountId "act_999" = "act_999" ∧
    (∀ s, normalizeAccountId (normalizeAccountId s) = normalizeAccountId s) ∧
    (∀ (fetch : InsightFetch) (account_id account_name currency : String),
        get_account_summary fetch (normalizeAccountId account_id) account_name currency =
          get_account_summary fetch account_id account_name currency) := by
  have idem : ∀ s, normalizeAccountId (normalizeAccountId s) = normalizeAccountId s := by
    intro s
    unfold normalizeAccountId
    by_cases h : startswith s "act_" = true
    · simp [h]
    · simp [h, startswith_act_append]
  refine ⟨by decide, by decide, idem, ?_⟩
  intro fetch account_id account_name currency
  simp only [get_account_summary, idem]

/-! ## C2: derived-ratio safety -/

theorem foldl_accumRow_spend_nonneg (rows : List ReportRow) :
    ∀ t : AggregateSummary, 0 ≤ t.spend → (∀ r ∈ rows, 0 ≤ r.spend.getD 0) →
    0 ≤ (rows.foldl accumRow t).spend := by
  induction rows with
  | nil => intro t ht _; exact ht
  | cons r rest ih =>
    intro t ht h
    simp only [List.foldl_cons]
    exact ih _ (add_nonneg ht (h r (by simp))) fun b hb => h b (by simp [hb])

theorem foldl_accumRow_clicks_nonneg (rows : List ReportRow) :
    ∀ t : AggregateSummary, 0 ≤ t.clicks → (∀ r ∈ rows, 0 ≤ r.clicks.getD 0) →
    0 ≤ (rows.foldl accumRow t).clicks := by
  induction rows with
  | nil => intro t ht _; exact ht
  | cons r rest ih =>
    intro t ht h
    simp only [List.foldl_cons]
    exact ih _ (add_nonneg ht (h r (by simp))) fun b hb => h b (by simp [hb])

theorem calc_spend_def (rows : List ReportRow) :
    (calculate_account_summary rows).spend = (rows.foldl accumRow initTotals).spend := rfl

theorem calc_impressions_def (rows : List ReportRow) :
    (calculate_account_summary rows).impressions =
      (rows.foldl accumRow initTotals).impressions := rfl

theorem calc_clicks_def (rows : List ReportRow) :
    (calculate_account_summary rows).clicks = (rows.foldl accumRow initTotals).clicks := rfl

theorem calc_leads_def (rows : List ReportRow) :
    (calculate_account_summary rows).leads = (rows.foldl accumRow initTotals).leads := rfl

theorem calc_cpm_def (rows : List ReportRow) :
    (calculate_account_summary rows).cpm =
      if (rows.foldl accumRow initTotals).impressions > 0 then
        (rows.foldl accumRow initTotals).spend /
          ((rows.foldl accumRow initTotals).impressions : ℚ) * 1000
      else 0 := rfl

theorem calc_ctr_def (rows : List ReportRow) :
    (calculate_account_summary rows).ctr =
      if (rows.foldl accumRow initTotals).impressions > 0 then
        ((rows.foldl accumRow initTotals).clicks : ℚ) /
          ((rows.foldl accumRow initTotals).impressions : ℚ) * 100
      else 0 := rfl

theorem calc_cpc_def (rows : List ReportRow) :
    (calculate_account_summary rows).cpc =
      if (rows.foldl accumRow initTotals).clicks > 0 then
        (rows.foldl accumRow initTotals).spend /
          ((rows.foldl accumRow initTotals).clicks : ℚ)
      else 0 := rfl

theorem calc_cpl_def (rows : List ReportRow) :
    (calculate_account_summary rows).cpl =
      if (rows.foldl accumRow initTotals).leads > 0 then
        (rows.foldl accumRow initTotals).spend /
          ((rows.foldl accumRow initTotals).leads : ℚ)
      else 0 := rfl

/-- Counterexample to C2 as stated: the claim quantifies over ALL
`ReportRow` sequences, but a row whose reported spend is negative (the
code applies `float(...)` with no sign restriction) yields a strictly
negative cpm while the denominator (impressions) is positive. -/
theorem claim_C2_counterexample :
    0 < (calculate_account_summary
          [⟨some (-1), some 1, none, none, none⟩]).impressions ∧
    (calculate_account_summary
          [⟨some (-1), some 1, none, none, none⟩]).cpm < 0 := by
  norm_num [calculate_account_summary, accumRow, initTotals, extract_leads,
    extract_link_clicks]

/-- C2 (amended): provided every row's spend and clicks are
non-negative, each derived ratio of the aggregate summary is
non-negative (and, being a rational, finite) when its denominator is
positive, and each ratio is exactly 0 when its denominator is 0; the
aggregator is a total function, so no input raises a division error. -/
theorem claim_C2_amended_ratio_safety (rows : List ReportRow)
    (hspend : ∀ r ∈ rows, 0 ≤ r.spend.getD 0)
    (hclicks : ∀ r ∈ rows, 0 ≤ r.clicks.getD 0) :
    (0 < (calculate_account_summary rows).impressions →
      0 ≤ (calculate_account_summary rows).cpm ∧
      0 ≤ (calculate_account_summary rows).ctr) ∧
    ((calculate_account_summary rows).impressions = 0 →
      (calculate_account_summary rows).cpm = 0 ∧
      (calculate_account_summary rows).ctr = 0) ∧
    (0 < (calculate_account_summary rows).clicks →
      0 ≤ (calculate_account_summary rows).cpc) ∧
    ((calculate_account_summary rows).clicks = 0 →
      (calculate_account_summary rows).cpc = 0) ∧
    (0 < (calculate_account_summary rows).leads →
      0 ≤ (calculate_account_summary rows).cpl) ∧
    ((calculate_account_summary rows).leads = 0 →
      (calculate_account_summary rows).cpl = 0) := by
  have hs : 0 ≤ (rows.foldl accumRow initTotals).spend :=
    foldl_accumRow_spend_nonneg rows initTotals le_rfl hspend
  have hc : 0 ≤ (rows.foldl accumRow initTotals).clicks :=
    foldl_accumRow_clicks_nonneg rows initTotals le_rfl hclicks
  refine ⟨?_, ?_, ?_, ?_, ?_, ?_⟩
  · intro himp
    rw [calc_impressions_def] at himp
    rw [calc_cpm_def, calc_ctr_def, if_pos himp, if_pos himp]
    have himpq : (0 : ℚ) ≤ ((rows.foldl accumRow initTotals).impressions : ℚ) := by
      exact_mod_cast le_of_lt himp
    have hcq : (0 : ℚ) ≤ ((rows.foldl accumRow initTotals).clicks : ℚ) := by
      exact_mod_cast hc
    constructor
    · exact mul_nonneg (div_nonneg hs himpq) (by norm_num)
    · exact mul_nonneg (div_nonneg hcq himpq) (by norm_num)
  · intro himp
    rw [calc_impressions_def] at himp
    rw [calc_cpm_def, calc_ctr_def, himp]
    norm_num
  · intro hclk
    rw [calc_clicks_def] at hclk
    rw [calc_cpc_def, if_pos hclk]
    have hclkq : (0 : ℚ) ≤ ((rows.foldl accumRow initTotals).clicks : ℚ) := by
      exact_mod_cast le_of_lt hclk
    exact div_nonneg hs hclkq
  · intro hclk
    rw [calc_clicks_def] at hclk
    rw [calc_cpc_def, hclk]
    norm_num
  · intro hld
    rw [calc_leads_def] at hld
    rw [calc_cpl_def, if_pos hld]
    have hldq : (0 : ℚ) ≤ ((rows.foldl accumRow initTotals).leads : ℚ) := by
      exact_mod_cast le_of_lt hld
    exact div_nonneg hs hldq
  · intro hld
    rw [calc_leads_def] at hld
    rw [calc_cpl_def, hld]
    norm_num

/-- Witness for the amended C2, at the one-row input
`{spend 4, impressions 2, clicks 1}`: the hypotheses hold and so does
the full guarded-ratio conclusion. -/
theorem claim_C2_amended_ratio_safety_witness :
    (∀ r ∈ ([⟨some 4, some 2, none, some 1, none⟩] : List ReportRow),
      0 ≤ r.spend.getD 0) ∧
    (∀ r ∈ ([⟨some 4, some 2, none, some 1, none⟩] : List ReportRow),
      0 ≤ r.clicks.getD 0) ∧
    ((0 < (calculate_account_summary
          [⟨some 4, some 2, none, some 1, none⟩]).impressions →
        0 ≤ (calculate_account_summary
          [⟨some 4, some 2, none, some 1, none⟩]).cpm ∧
        0 ≤ (calculate_account_summary
          [⟨some 4, some 2, none, some 1, none⟩]).ctr) ∧
      ((calculate_account_summary
          [⟨some 4, some 2, none, some 1, none⟩]).impressions = 0 →
        (calculate_account_summary
          [⟨some 4, some 2, none, some 1, none⟩]).cpm = 0 ∧
        (calculate_account_summary
          [⟨some 4, some 2, none, some 1, none⟩]).ctr = 0) ∧
      (0 < (calculate_account_summary
          [⟨some 4, some 2, none, some 1, none⟩]).clicks →
        0 ≤ (calculate_account_summary
          [⟨some 4, some 2, none, some 1, none⟩]).cpc) ∧
      ((calculate_account_summary
          [⟨some 4, some 2, none, some 1, none⟩]).clicks = 0 →
        (calculate_account_summary
          [⟨some 4, some 2, none, some 1, none⟩]).cpc = 0) ∧
      (0 < (calculate_account_summary
          [⟨some 4, some 2, none, some 1, none⟩]).leads →
        0 ≤ (calculate_account_summary
          [⟨some 4, some 2, none, some 1, none⟩]).cpl) ∧
      ((calculate_account_summary
          [⟨some 4, some 2, none, some 1, none⟩]).leads = 0 →
        (calculate_account_summary
          [⟨some 4, some 2, none, some 1, none⟩]).cpl = 0)) := by
  have h1 : ∀ r ∈ ([⟨some 4, some 2, none, some 1, none⟩] : List ReportRow),
      0 ≤ r.spend.getD 0 := by
    intro r hr
    simp only [List.mem_singleton] at hr
    subst hr
    norm_num
  have h2 : ∀ r ∈ ([⟨some 4, some 2, none, some 1, none⟩] : List ReportRow),
      0 ≤ r.clicks.getD 0 := by
    intro r hr
    simp only [List.mem_singleton] at hr
    subst hr
    norm_num
  exact ⟨h1, h2, claim_C2_amended_ratio_safety _ h1 h2⟩

/-! ## C4: partial-failure isolation -/

/-- Does the insight fetch for this account succeed with a non-empty
`data` list (so that `get_account_summary` produces a summary)? -/
def fetch_ok_nonempty (fetch : InsightFetch) (account : Account) : Bool :=
  match fetch (normalizeAccountId account.id) with
  | .ok rows => !rows.isEmpty
  | .error _ => false

theorem length_filterMap_of_isSome {α β : Type} (f : α → Option β) (l : List α)
    (h : ∀ a ∈ l, (f a).isSome) : (l.filterMap f).length = l.length := by
  induction l with
  | nil => rfl
  | cons a rest ih =>
    have ha := h a (by simp)
    rcases Option.isSome_iff_exists.mp ha with ⟨b, hb⟩
    simp [List.filterMap_cons, hb, ih fun x hx => h x (by simp [hx])]

theorem get_account_summary_isSome_of_ok (fetch : InsightFetch) (account : Account)
    (h : fetch_ok_nonempty fetch account = true) :
    (get_account_summary fetch account.id (account.name.getD "Unknown")
      (account.currency.getD "USD")).isSome := by
  unfold fetch_ok_nonempty at h
  unfold get_account_summary
  cases hfetch : fetch (normalizeAccountId account.id) with
  | error e => rw [hfetch] at h; simp at h
  | ok rows =>
    rw [hfetch] at h
    simp only [Bool.not_eq_true'] at h
    simp [hfetch, h]

theorem get_account_summary_eq_none_of_error (fetch : InsightFetch)
    (account_id account_name currency : String) (e : String)
    (h : fetch (normalizeAccountId account_id) = .error e) :
    get_account_summary fetch account_id account_name currency = none := by
  simp [get_account_summary, h]

/-- The concrete two-account environment refuting C4 as stated:
account `act_1` fails (its fetch raises), account `act_2` succeeds but
with an empty `data` list. -/
def failingFetch : InsightFetch := fun aid =>
  if aid == "act_1" then .error "boom" else .ok []

/-- Counterexample to C4 as stated: with 2 accounts of which exactly one
fails (the other's fetch succeeds, returning an empty insight list),
`get_all_accounts_summary` returns 0 summaries, not N - 1 = 1 — a
succeeding zero-row account is dropped too. -/
theorem claim_C4_counterexample :
    failingFetch (normalizeAccountId "act_1") = .error "boom" ∧
    failingFetch (normalizeAccountId "act_2") = .ok [] ∧
    (get_all_accounts_summary failingFetch
        [⟨"act_1", none, none⟩, ⟨"act_2", none, none⟩]).length = 0 ∧
    (0 : Nat) ≠ 2 - 1 := by
  refine ⟨rfl, rfl, rfl, by decide⟩

/-- C4 (amended): given N accounts of which exactly one fails during
summarization and every other account's fetch succeeds with at least
one insight row, `get_all_accounts_summary` returns exactly N - 1
summaries; the failing account is omitted from the output and the
iteration over the sibling accounts is not aborted (the result is the
same as if the failing account were absent); the function is total, so
the failure is never raised to the caller. -/
theorem claim_C4_amended_partial_failure (fetch : InsightFetch)
    (pre post : List Account) (a : Account) (e : String)
    (hfail : fetch (normalizeAccountId a.id) = .error e)
    (hok : ∀ b ∈ pre ++ post, fetch_ok_nonempty fetch b = true) :
    get_all_accounts_summary fetch (pre ++ a :: post) =
      get_all_accounts_summary fetch (pre ++ post) ∧
    (get_all_accounts_summary fetch (pre ++ a :: post)).length =
      (pre ++ a :: post).length - 1 := by
  have hfa : get_account_summary fetch a.id (a.name.getD "Unknown")
      (a.currency.getD "USD") = none :=
    get_account_summary_eq_none_of_error fetch a.id _ _ e hfail
  have heq : get_all_accounts_summary fetch (pre ++ a :: post) =
      get_all_accounts_summary fetch (pre ++ post) := by
    unfold get_all_accounts_summary
    simp [List.filterMap_append, List.filterMap_cons, hfa]
  refine ⟨heq, ?_⟩
  rw [heq]
  unfold get_all_accounts_summary
  rw [length_filterMap_of_isSome _ _
    (fun b hb => get_account_summary_isSome_of_ok fetch b (hok b hb))]
  simp [List.length_append]

/-- The concrete three-account environment for the amended C4: the
middle account `act_bad` fails, the two siblings succeed with one row
each. -/
def isolationFetch : InsightFetch := fun aid =>
  if aid == "act_bad" then .error "boom"
  else .ok [⟨some 1, some 1, none, none, none⟩]

/-- Witness for the amended C4 at a concrete input: 3 accounts, the
middle one failing, the result has 3 - 1 = 2 summaries. -/
theorem claim_C4_amended_partial_failure_witness :
    isolationFetch (normalizeAccountId "act_bad") = .error "boom" ∧
    (∀ b ∈ ([⟨"act_1", none, none⟩] ++ [⟨"act_2", none, none⟩] : List Account),
      fetch_ok_nonempty isolationFetch b = true) ∧
    (get_all_accounts_summary isolationFetch
        ([⟨"act_1", none, none⟩] ++ ⟨"act_bad", none, none⟩ ::
          [⟨"act_2", none, none⟩])).length =
      (([⟨"act_1", none, none⟩] ++ ⟨"act_bad", none, none⟩ ::
          [⟨"act_2", none, none⟩] : List Account)).length - 1 := by
  refine ⟨rfl, by decide, ?_⟩
  exact (claim_C4_amended_partial_failure isolationFetch
    [⟨"act_1", none, none⟩] [⟨"act_2", none, none⟩]
    ⟨"act_bad", none, none⟩ "boom" rfl (by decide)).2

/-! ## C5 and C9: pagination termination and error envelopes -/

theorem range_flatten_shift (g : Nat → List Account) (n i : Nat) :
    ((List.range (n + 2)).map fun k => g (i + k)).flatten =
      g i ++ ((List.range (n + 1)).map fun k => g (i + 1 + k)).flatten := by
  rw [List.range_succ_eq_map, List.map_cons, List.flatten_cons, List.map_map]
  simp only [Nat.add_zero]
  congr 1
  congr 1
  apply List.map_congr_left
  intro k _
  simp only [Function.comp_apply]
  congr 1
  omega

theorem fetchAccountsLoop_ok (resp : Nat → PageResponse) :
    ∀ (n i : Nat),
      (∀ k, k ≤ n → (resp (i + k)).error = none) →
      (∀ k, k < n → continuesPaging (resp (i + k)) = true) →
      continuesPaging (resp (i + n)) = false →
      ∀ fuel, n < fuel →
        fetchAccountsLoop resp fuel i =
          some (.ok (((List.range (n + 1)).map fun k => (resp (i + k)).data).flatten)) := by
  intro n
  induction n with
  | zero =>
    intro i herr hcont hstop fuel hfuel
    match fuel, hfuel with
    | fuel + 1, _ =>
      have he : (resp i).error = none := by simpa using herr 0 le_rfl
      have hs : continuesPaging (resp i) = false := by simpa using hstop
      simp [fetchAccountsLoop, request_check, he, hs, List.range_succ]
  | succ n ih =>
    intro i herr hcont hstop fuel hfuel
    match fuel, hfuel with
    | fuel + 1, hf =>
      have he : (resp i).error = none := by simpa using herr 0 (Nat.zero_le _)
      have hc : continuesPaging (resp i) = true := by simpa using hcont 0 (Nat.succ_pos n)
      have hrec := ih (i + 1)
        (fun k hk => by
          have := herr (k + 1) (Nat.succ_le_succ hk)
          simpa [Nat.add_assoc, Nat.add_comm 1 k] using this)
        (fun k hk => by
          have := hcont (k + 1) (Nat.succ_lt_succ hk)
          simpa [Nat.add_assoc, Nat.add_comm 1 k] using this)
        (by
          have := hstop
          simpa [Nat.add_assoc, Nat.add_comm 1 n] using this)
        fuel (Nat.lt_of_succ_lt_succ hf)
      simp only [fetchAccountsLoop, request_check, he, hc, hrec, if_true]
      rw [show n + 1 + 1 = n + 2 from rfl,
        range_flatten_shift (fun m => (resp m).data) n i]
      rfl

theorem fetchAccountsLoop_error (resp : Nat → PageResponse) (e : FBError) :
    ∀ (n i : Nat),
      (∀ k, k < n → (resp (i + k)).error = none ∧ continuesPaging (resp (i + k)) = true) →
      (resp (i + n)).error = some e →
      ∀ fuel, n < fuel →
        fetchAccountsLoop resp fuel i =
          some (.error (e.message.getD "Facebook API error")) := by
  intro n
  induction n with
  | zero =>
    intro i hpre herr fuel hfuel
    match fuel, hfuel with
    | fuel + 1, _ =>
      have he : (resp i).error = some e := by simpa using herr
      simp [fetchAccountsLoop, request_check, he]
  | succ n ih =>
    intro i hpre herr fuel hfuel
    match fuel, hfuel with
    | fuel + 1, hf =>
      have he : (resp i).error = none := by simpa using (hpre 0 (Nat.succ_pos n)).1
      have hc : continuesPaging (resp i) = true := by
        simpa using (hpre 0 (Nat.succ_pos n)).2
      have hrec := ih (i + 1)
        (fun k hk => by
          have := hpre (k + 1) (Nat.succ_lt_succ hk)
          simpa [Nat.add_assoc, Nat.add_comm 1 k] using this)
        (by
          have := herr
          simpa [Nat.add_assoc, Nat.add_comm 1 n] using this)
        fuel (Nat.lt_of_succ_lt_succ hf)
      simp [fetchAccountsLoop, request_check, he, hc, hrec, Except.map]

/-- C5: if request `n` is the first whose envelope omits the `"next"`
cursor or omits the `"after"` field inside the paging cursors — even
though every earlier page supplied both — and no page up to `n` carries
an error envelope, then the page loop terminates after exactly `n + 1`
requests (any fuel bound above `n` yields the same final result) and
returns the concatenation of the `data` arrays of all pages fetched
before stopping. -/
theorem claim_C5_pagination_termination (resp : Nat → PageResponse) (n : Nat)
    (herr : ∀ k, k ≤ n → (resp k).error = none)
    (hcont : ∀ k, k < n → continuesPaging (resp k) = true)
    (hstop : continuesPaging (resp n) = false) :
    ∀ fuel, n < fuel →
      get_business_ad_accounts resp fuel =
        some (.ok (((List.range (n + 1)).map fun k => (resp k).data).flatten)) := by
  intro fuel hfuel
  have h := fetchAccountsLoop_ok resp n 0 (fun k hk => by simpa using herr k hk)
    (fun k hk => by simpa using hcont k hk) (by simpa using hstop) fuel hfuel
  simpa [get_business_ad_accounts] using h

/-- A two-page remote: the first page supplies a `"next"`/`"after"`
cursor pair, the second omits them. -/
def twoPages : Nat → PageResponse := fun i =>
  if i = 0 then ⟨none, [⟨"act_1", none, none⟩], ⟨true, some "cursor"⟩⟩
  else ⟨none, [⟨"act_2", none, none⟩], ⟨false, none⟩⟩

/-- Witness for C5: on the two-page remote the loop stops after the
second request and returns the two data arrays concatenated. -/
theorem claim_C5_pagination_termination_witness :
    (∀ k, k ≤ 1 → (twoPages k).error = none) ∧
    (∀ k, k < 1 → continuesPaging (twoPages k) = true) ∧
    continuesPaging (twoPages 1) = false ∧
    get_business_ad_accounts twoPages 2 =
      some (.ok [⟨"act_1", none, none⟩, ⟨"act_2", none, none⟩]) := by
  have herr : ∀ k, k ≤ 1 → (twoPages k).error = none := by
    intro k hk
    unfold twoPages
    split <;> rfl
  have hcont : ∀ k, k < 1 → continuesPaging (twoPages k) = true := by
    intro k hk
    interval_cases k
    rfl
  have hstop : continuesPaging (twoPages 1) = false := rfl
  refine ⟨herr, hcont, hstop, ?_⟩
  have h := claim_C5_pagination_termination twoPages 1 herr hcont hstop 2 (by omega)
  rw [h]
  rfl

/-- C9: if the response to request `n` carries an explicit error
envelope (and the pages before it paged on normally), the whole
operation fails immediately: `request_check` signals an error carrying
the remote-supplied message, and the page loop returns exactly that
error — no retry, no further pages, no partial data. -/
theorem claim_C9_error_envelope_failure (resp : Nat → PageResponse) (n : Nat)
    (e : FBError)
    (hpre : ∀ k, k < n → (resp k).error = none ∧ continuesPaging (resp k) = true)
    (herr : (resp n).error = some e) :
    request_check (resp n) = .error (e.message.getD "Facebook API error") ∧
    ∀ fuel, n < fuel →
      get_business_ad_accounts resp fuel =
        some (.error (e.message.getD "Facebook API error")) := by
  constructor
  · simp [request_check, herr]
  · intro fuel hfuel
    have h := fetchAccountsLoop_error resp e n 0
      (fun k hk => by simpa using hpre k hk) (by simpa using herr) fuel hfuel
    simpa [get_business_ad_accounts] using h

/-- A remote that always answers with an error envelope whose message is
`"bad token"`. -/
def errorPage : Nat → PageResponse := fun _ => ⟨some ⟨some "bad token"⟩, [], ⟨false, none⟩⟩

/-- Witness for C9: on the always-erroring remote the first request
already fails and the loop surfaces the remote message. -/
theorem claim_C9_error_envelope_failure_witness :
    (errorPage 0).error = some ⟨some "bad token"⟩ ∧
    request_check (errorPage 0) = .error "bad token" ∧
    get_business_ad_accounts errorPage 1 = some (.error "bad token") := by
  have h := claim_C9_error_envelope_failure errorPage 0 ⟨some "bad token"⟩
    (fun k hk => absurd hk (Nat.not_lt_zero k)) rfl
  exact ⟨rfl, by simpa using h.1, by simpa using h.2 1 (by omega)⟩

/-! ## C1: creative URL resolution priority -/

/-- The value the asset-feed branch of `get_campaign_urls` assigns to
`url` when it fires: `some (link_urls[0].get("website_url"))` whenever
`asset_feed_spec` holds a non-empty `link_urls` list, `none` (branch
does not fire) otherwise. -/
def assetFeedFirstUrl (creative : Creative) : Option (Option String) :=
  match creative.asset_feed_spec with
  | none => none
  | some af =>
    match af.link_urls with
    | none => none
    | some [] => none
    | some (entry :: _) => some entry.website_url

/-- The value `url` holds after the `link_url` and `object_story_spec`
assignments of `get_campaign_urls` but before the asset-feed branch. -/
def storySpecOrLinkUrl (creative : Creative) : Option String :=
  match creative.object_story_spec with
  | none => if strTruthy creative.link_url then creative.link_url else none
  | some oss =>
    let ossLink := oss.link_data.bind fun ld => ld.link
    let u := if strTruthy ossLink then ossLink
             else if strTruthy creative.link_url then creative.link_url else none
    if strTruthy (videoCtaLink oss) then videoCtaLink oss else u

theorem resolve_creative_url_split (creative : Creative) :
    resolve_creative_url creative =
      (assetFeedFirstUrl creative).getD (storySpecOrLinkUrl creative) := by
  rcases creative with ⟨lu, oss, af⟩
  cases af with
  | none =>
    cases oss <;> rfl
  | some a =>
    cases hlu : a.link_urls with
    | none =>
      cases oss <;>
        simp [resolve_creative_url, assetFeedFirstUrl, storySpecOrLinkUrl, hlu]
    | some lus =>
      cases lus with
      | nil =>
        cases oss <;>
          simp [resolve_creative_url, assetFeedFirstUrl, storySpecOrLinkUrl, hlu]
      | cons entry rest =>
        cases oss <;>
          simp [resolve_creative_url, assetFeedFirstUrl, storySpecOrLinkUrl, hlu]

/-- A creative carrying both a direct `link_url` and an asset-feed URL. -/
def conflictingCreative : Creative :=
  { link_url := some "https://direct.test"
    object_story_spec := none
    asset_feed_spec := some ⟨some [⟨some "https://feed.test"⟩]⟩ }

/-- Counterexample to C1 as stated: on a creative carrying both a direct
link field and an asset-feed URL, the code keeps the asset-feed URL, not
the direct link field — the successive assignments make the LAST source
win, not the first. -/
theorem claim_C1_counterexample :
    conflictingCreative.link_url = some "https://direct.test" ∧
    assetFeedFirstUrl conflictingCreative = some (some "https://feed.test") ∧
    resolve_creative_url conflictingCreative = some "https://feed.test" ∧
    resolve_creative_url conflictingCreative ≠ conflictingCreative.link_url := by
  refine ⟨rfl, rfl, rfl, by decide⟩

/-- C1 (amended): the resolver checks the sources in the order direct
link field, story-spec link, video call-to-action link, asset-feed
first URL, but each later (truthy) source OVERWRITES the earlier ones,
so the effective priority is the reverse of the claimed one: the first
asset-feed URL wins whenever the asset feed lists any URL entry (even
one whose `website_url` is absent); otherwise a truthy video
call-to-action link; otherwise a truthy story-spec link; otherwise the
truthy direct link field; otherwise no URL. -/
theorem claim_C1_amended_url_priority :
    (∀ (creative : Creative) (u : Option String),
        assetFeedFirstUrl creative = some u →
        resolve_creative_url creative = u) ∧
    (∀ (creative : Creative) (oss : ObjectStorySpec),
        assetFeedFirstUrl creative = none →
        creative.object_story_spec = some oss →
        strTruthy (videoCtaLink oss) = true →
        resolve_creative_url creative = videoCtaLink oss) ∧
    (∀ (creative : Creative) (oss : ObjectStorySpec),
        assetFeedFirstUrl creative = none →
        creative.object_story_spec = some oss →
        strTruthy (videoCtaLink oss) = false →
        strTruthy (oss.link_data.bind fun ld => ld.link) = true →
        resolve_creative_url creative = oss.link_data.bind fun ld => ld.link) ∧
    (∀ (creative : Creative) (oss : ObjectStorySpec),
        assetFeedFirstUrl creative = none →
        creative.object_story_spec = some oss →
        strTruthy (videoCtaLink oss) = false →
        strTruthy (oss.link_data.bind fun ld => ld.link) = false →
        resolve_creative_url creative =
          if strTruthy creative.link_url then creative.link_url else none) ∧
    (∀ creative : Creative,
        assetFeedFirstUrl creative = none →
        creative.object_story_spec = none →
        resolve_creative_url creative =
          if strTruthy creative.link_url then creative.link_url else none) := by
  refine ⟨?_, ?_, ?_, ?_, ?_⟩
  · intro creative u h
    rw [resolve_creative_url_split, h]
    rfl
  · intro creative oss hnone hoss hcta
    rw [resolve_creative_url_split, hnone]
    simp [storySpecOrLinkUrl, hoss, hcta]
  · intro creative oss hnone hoss hcta hlink
    rw [resolve_creative_url_split, hnone]
    simp [storySpecOrLinkUrl, hoss, hcta, hlink]
  · intro creative oss hnone hoss hcta hlink
    rw [resolve_creative_url_split, hnone]
    simp [storySpecOrLinkUrl, hoss, hcta, hlink]
  · intro creative hnone hoss
    rw [resolve_creative_url_split, hnone]
    simp [storySpecOrLinkUrl, hoss]

/-- Witness for the amended C1: on the creative carrying both sources
the asset-feed URL is resolved; on a creative carrying only a direct
link, the direct link is resolved. -/
theorem claim_C1_amended_url_priority_witness :
    resolve_creative_url conflictingCreative = some "https://feed.test" ∧
    resolve_creative_url ⟨some "https://direct.test", none, none⟩ =
      some "https://direct.test" := by
  constructor
  · exact claim_C1_amended_url_priority.1 conflictingCreative
      (some "https://feed.test") rfl
  · have h := claim_C1_amended_url_priority.2.2.2.2
      ⟨some "https://direct.test", none, none⟩ rfl rfl
    simpa using h

/-! ## C7: per-campaign records reuse platform ratios -/

/-- C7: `get_account_campaigns` maps each campaign-level insight row to
a record whose cpm, ctr and cpc are taken verbatim from the
platform-reported row fields (defaulting to 0 when absent) rather than
recomputed, and only cpl is computed locally as spend / leads, with
cpl = 0 when leads is 0. -/
theorem claim_C7_platform_ratio_reuse :
    (∀ (rows : List CampaignInsightRow) (ads : List Ad),
        get_account_campaigns rows ads =
          rows.map (mkCampaignRecord (campaign_urls_of ads))) ∧
    ∀ (campaign_urls : List (String × String)) (row : CampaignInsightRow),
      (mkCampaignRecord campaign_urls row).cpm = row.cpm.getD 0 ∧
      (mkCampaignRecord campaign_urls row).ctr = row.ctr.getD 0 ∧
      (mkCampaignRecord campaign_urls row).cpc = row.cpc.getD 0 ∧
      ((mkCampaignRecord campaign_urls row).leads = 0 →
        (mkCampaignRecord campaign_urls row).cpl = 0) ∧
      (0 < (mkCampaignRecord campaign_urls row).leads →
        (mkCampaignRecord campaign_urls row).cpl =
          (mkCampaignRecord campaign_urls row).spend /
            ((mkCampaignRecord campaign_urls row).leads : ℚ)) := by
  refine ⟨fun rows ads => rfl, ?_⟩
  intro campaign_urls row
  refine ⟨rfl, rfl, rfl, ?_, ?_⟩
  · intro h
    have h' : extract_leads row.actions = 0 := h
    show (if extract_leads row.actions > 0 then
        row.spend.getD 0 / ((extract_leads row.actions : Int) : ℚ) else 0) = 0
    rw [h']
    norm_num
  · intro h
    have h' : 0 < extract_leads row.actions := h
    show (if extract_leads row.actions > 0 then
        row.spend.getD 0 / ((extract_leads row.actions : Int) : ℚ) else 0) =
      row.spend.getD 0 / ((extract_leads row.actions : Int) : ℚ)
    rw [if_pos h']

/-- Witness for C7 at a concrete row: platform values 7, 8, 9 are passed
through, and with no matching lead action cpl is 0. -/
theorem claim_C7_platform_ratio_reuse_witness :
    (mkCampaignRecord [] ⟨some "camp", some "c1", some 10, some 100, none,
        some 3, some [], some 7, some 8, some 9⟩).cpm = 7 ∧
    (mkCampaignRecord [] ⟨some "camp", some "c1", some 10, some 100, none,
        some 3, some [], some 7, some 8, some 9⟩).leads = 0 ∧
    (mkCampaignRecord [] ⟨some "camp", some "c1", some 10, some 100, none,
        some 3, some [], some 7, some 8, some 9⟩).cpl = 0 := by
  have h := (claim_C7_platform_ratio_reuse.2 []
    ⟨some "camp", some "c1", some 10, some 100, none, some 3, some [],
      some 7, some 8, some 9⟩)
  exact ⟨h.1, rfl, h.2.2.2.1 rfl⟩

/-! ## C10: zero-row accounts are indistinguishable from failed ones -/

/-- C10: an account whose insights fetch succeeds with an empty `data`
list gets the same `none` summary as one whose fetch raises, and
`get_all_accounts_summary` drops any `none`-summary account from its
output, so a successful zero-row account is silently omitted exactly
like a failed one. -/
theorem claim_C10_zero_row_indistinguishable (fetch : InsightFetch)
    (account_id account_name currency : String) :
    (fetch (normalizeAccountId account_id) = .ok [] →
      get_account_summary fetch account_id account_name currency = none) ∧
    (∀ e, fetch (normalizeAccountId account_id) = .error e →
      get_account_summary fetch account_id account_name currency = none) ∧
    (∀ (accounts : List Account) (a : Account),
      get_account_summary fetch a.id (a.name.getD "Unknown")
        (a.currency.getD "USD") = none →
      get_all_accounts_summary fetch (a :: accounts) =
        get_all_accounts_summary fetch accounts) := by
  refine ⟨?_, ?_, ?_⟩
  · intro h
    simp [get_account_summary, h]
  · intro e h
    simp [get_account_summary, h]
  · intro accounts a h
    simp [get_all_accounts_summary, List.filterMap_cons, h]

/-- A fetch that always succeeds with an empty insight list. -/
def emptyFetch : InsightFetch := fun _ => .ok []

/-- Witness for C10: an account whose fetch succeeds with zero rows gets
summary `none` and is dropped from the all-accounts output. -/
theorem claim_C10_zero_row_indistinguishable_witness :
    emptyFetch (normalizeAccountId "act_1") = .ok [] ∧
    get_account_summary emptyFetch "act_1" "Unknown" "USD" = none ∧
    get_all_accounts_summary emptyFetch [⟨"act_1", none, none⟩] = [] := by
  have h := claim_C10_zero_row_indistinguishable emptyFetch "act_1" "Unknown" "USD"
  refine ⟨rfl, h.1 rfl, ?_⟩
  have h2 := h.2.2 [] ⟨"act_1", none, none⟩ (h.1 rfl)
  simpa using h2

end FacebookAdsClient
